import Mathlib

/-!
Verification of the solar plant pipeline (`solar_functions.py`).

The numeric core is embedded shallowly over `ℚ`: pandas time series become
`List ℚ`, elementwise pandas arithmetic becomes `List.map` / `List.zipWith`,
and the pandas masked assignment `s[s < 0] = 0` becomes a `max 0` clamp map.
Scalar plant parameters are carried in plain structures mirroring the
attributes stored on the model-chain object.
-/

set_option autoImplicit false

/-! ## AC stage (`run_pvwatts_ac`) and plant stage (`run_plant_model`)

Embedding of the scalar parameters that `run_pvwatts_ac` and
`run_plant_model` read from the model chain. -/

structure AcParams where
  pmt_peak_loss : ℚ
  pmt_rating : ℚ
  pmt_constant_loss : ℚ
  ac_collection : ℚ
  mpt_peak_loss : ℚ
  mpt_bottom_rating : ℚ
  mpt_constant_loss : ℚ
  transmission_loss : ℚ
  poi_capacity : ℚ
  plant_losses : ℚ
  deriving DecidableEq, Repr

/-- Pandas masked assignment `s[s < 0] = 0`, applied to a whole series. -/
def clampNonneg (xs : List ℚ) : List ℚ :=
  xs.map fun x => max 0 x

/-- Source: `pmt_out = self.ac.pac - (self.pmt_peak_loss * (self.ac.pac /
.98 / self.pmt_rating)**2 + self.pmt_constant_loss)` followed by
`pmt_out[pmt_out < 0] = 0`. -/
def pmtOutSeries (c : AcParams) (pac : List ℚ) : List ℚ :=
  clampNonneg (pac.map fun p =>
    p - (c.pmt_peak_loss * (p / (98/100) / c.pmt_rating) ^ 2 + c.pmt_constant_loss))

/-- Source: `mpt_in = pmt_out * (1 - self.ac_collection)`. -/
def mptInSeries (c : AcParams) (pac : List ℚ) : List ℚ :=
  (pmtOutSeries c pac).map fun x => x * (1 - c.ac_collection)

/-- Source: `mpt_out = mpt_in - (self.mpt_peak_loss * (mpt_in / .98 /
self.mpt_bottom_rating)**2 + self.mpt_constant_loss)` followed by
`mpt_out[mpt_out < 0] = 0`. -/
def mptOutSeries (c : AcParams) (pac : List ℚ) : List ℚ :=
  clampNonneg ((mptInSeries c pac).map fun q =>
    q - (c.mpt_peak_loss * (q / (98/100) / c.mpt_bottom_rating) ^ 2 + c.mpt_constant_loss))

/-- The `self.ac` DataFrame built by `run_pvwatts_ac`. -/
structure AcSeries where
  pac : List ℚ
  output : List ℚ
  losses : List ℚ
  clipping : List ℚ
  deriving DecidableEq, Repr

/-- Embedding of `run_pvwatts_ac`, as a function of the inverter output series `pac` and
the scalar parameters: transmission loss, cumulative losses, POI clipping. -/
def run_pvwatts_ac (c : AcParams) (pac : List ℚ) : AcSeries :=
  let output := (mptOutSeries c pac).map fun x => x * (1 - c.transmission_loss)
  { pac := pac
    output := output
    losses := List.zipWith (fun a b => a - b) pac output
    clipping := clampNonneg (output.map fun x => x - c.poi_capacity) }

/-- The `self.plant` DataFrame built by `run_plant_model`. -/
structure PlantSeries where
  output : List ℚ
  losses : List ℚ
  deriving DecidableEq, Repr

/-- Embedding of `run_plant_model`: `plant.output = ac.output - ac.clipping`,
`plant.losses = plant.output * plant_losses`. -/
def run_plant_model (c : AcParams) (ac : AcSeries) : PlantSeries :=
  let output := List.zipWith (fun a b => a - b) ac.output ac.clipping
  { output := output
    losses := output.map fun x => x * c.plant_losses }

/-! Per-timestep formulas written exactly as the specification states the AC
cascade; the claim theorems compare the series embedding above against
these. -/

/-- Spec formula: `pmt_out[t] = max(0, pac[t] - (pmt_peak_loss *
(pac[t] / 0.98 / pmt_rating)^2 + pmt_constant_loss))`. -/
def pmt_out_spec (c : AcParams) (p : ℚ) : ℚ :=
  max 0 (p - (c.pmt_peak_loss * (p / (98/100) / c.pmt_rating) ^ 2 + c.pmt_constant_loss))

/-- Spec formula: `mpt_in[t] = pmt_out[t] * (1 - ac_collection)`. -/
def mpt_in_spec (c : AcParams) (p : ℚ) : ℚ :=
  pmt_out_spec c p * (1 - c.ac_collection)

/-- Spec formula for the MPT step applied to an arbitrary input `q`:
`max(0, q - (mpt_peak_loss * (q / 0.98 / mpt_bottom_rating)^2 +
mpt_constant_loss))`. -/
def mpt_step_spec (c : AcParams) (q : ℚ) : ℚ :=
  max 0 (q - (c.mpt_peak_loss * (q / (98/100) / c.mpt_bottom_rating) ^ 2 + c.mpt_constant_loss))

/-- Spec formula: `mpt_out[t]`, the MPT step evaluated at `mpt_in[t]`. -/
def mpt_out_spec (c : AcParams) (p : ℚ) : ℚ :=
  mpt_step_spec c (mpt_in_spec c p)

/-- Spec formula: `output[t] = mpt_out[t] * (1 - transmission_loss)`. -/
def output_spec (c : AcParams) (p : ℚ) : ℚ :=
  mpt_out_spec c p * (1 - c.transmission_loss)

/-- Spec formula: `losses[t] = pac[t] - output[t]`. -/
def losses_spec (c : AcParams) (p : ℚ) : ℚ :=
  p - output_spec c p

/-- Spec formula: `clipping[t] = max(0, output[t] - poi_capacity)`. -/
def clipping_spec (c : AcParams) (p : ℚ) : ℚ :=
  max 0 (output_spec c p - c.poi_capacity)

/-! ### List helper lemmas -/

theorem zipWith_map_right_self {α β : Type} (f : α → α → β) (g : α → α) :
    ∀ xs : List α, List.zipWith f xs (xs.map g) = xs.map fun a => f a (g a)
  | [] => rfl
  | x :: xs => by
    simp only [List.map_cons, List.zipWith_cons_cons]
    exact congrArg _ (zipWith_map_right_self f g xs)

theorem getElem?_map_list {α β : Type} (f : α → β) (xs : List α) (t : ℕ) :
    (xs.map f)[t]? = (xs[t]?).map f := by
  simp

theorem pmtOutSeries_eq_map (c : AcParams) (pac : List ℚ) :
    pmtOutSeries c pac = pac.map (pmt_out_spec c) := by
  simp only [pmtOutSeries, clampNonneg, List.map_map]
  rfl

theorem mptInSeries_eq_map (c : AcParams) (pac : List ℚ) :
    mptInSeries c pac = pac.map (mpt_in_spec c) := by
  simp only [mptInSeries, pmtOutSeries_eq_map, List.map_map]
  rfl

theorem mptOutSeries_eq_map (c : AcParams) (pac : List ℚ) :
    mptOutSeries c pac = pac.map (mpt_out_spec c) := by
  simp only [mptOutSeries, clampNonneg, mptInSeries_eq_map, List.map_map]
  rfl

theorem acOutput_eq_map (c : AcParams) (pac : List ℚ) :
    (run_pvwatts_ac c pac).output = pac.map (output_spec c) := by
  simp only [run_pvwatts_ac, mptOutSeries_eq_map, List.map_map]
  rfl

theorem acLosses_eq_map (c : AcParams) (pac : List ℚ) :
    (run_pvwatts_ac c pac).losses = pac.map (losses_spec c) := by
  show List.zipWith (fun a b => a - b) pac ((run_pvwatts_ac c pac).output) = _
  rw [acOutput_eq_map, zipWith_map_right_self]
  rfl

theorem acClipping_eq_map (c : AcParams) (pac : List ℚ) :
    (run_pvwatts_ac c pac).clipping = pac.map (clipping_spec c) := by
  show clampNonneg (((run_pvwatts_ac c pac).output).map fun x => x - c.poi_capacity) = _
  rw [acOutput_eq_map]
  simp only [clampNonneg, List.map_map]
  rfl

/-- Claim C1: for every timestep `t`, the AC stage computes its cascade in
strict order from the inverter output `pac[t]`: first `pmt_out[t] =
max(0, pac[t] - (pmt_peak_loss * (pac[t]/0.98/pmt_rating)^2 +
pmt_constant_loss))`, then `mpt_in[t] = pmt_out[t] * (1 - ac_collection)`,
then `mpt_out[t] = max(0, mpt_in[t] - (mpt_peak_loss *
(mpt_in[t]/0.98/mpt_bottom_rating)^2 + mpt_constant_loss))`, then
`output[t] = mpt_out[t] * (1 - transmission_loss)`,
`losses[t] = pac[t] - output[t]`, and
`clipping[t] = max(0, output[t] - poi_capacity)`; each transformer
subtraction is clamped to zero independently before feeding the next step. -/
theorem c1_ac_cascade (c : AcParams) (pac : List ℚ) (t : ℕ) :
    (pmtOutSeries c pac)[t]? = (pac[t]?).map (pmt_out_spec c) ∧
    (mptInSeries c pac)[t]? = (pac[t]?).map (mpt_in_spec c) ∧
    (mptOutSeries c pac)[t]? = (pac[t]?).map (mpt_out_spec c) ∧
    (run_pvwatts_ac c pac).output[t]? = (pac[t]?).map (output_spec c) ∧
    (run_pvwatts_ac c pac).losses[t]? = (pac[t]?).map (losses_spec c) ∧
    (run_pvwatts_ac c pac).clipping[t]? = (pac[t]?).map (clipping_spec c) := by
  refine ⟨?_, ?_, ?_, ?_, ?_, ?_⟩
  · rw [pmtOutSeries_eq_map, getElem?_map_list]
  · rw [mptInSeries_eq_map, getElem?_map_list]
  · rw [mptOutSeries_eq_map, getElem?_map_list]
  · rw [acOutput_eq_map, getElem?_map_list]
  · rw [acLosses_eq_map, getElem?_map_list]
  · rw [acClipping_eq_map, getElem?_map_list]

/-! ### Claims C6 and C7: cascade round-trip and transformer losses -/

theorem zipWith_map_map {α β γ δ : Type} (f : β → γ → δ) (g : α → β) (h : α → γ) :
    ∀ xs : List α, List.zipWith f (xs.map g) (xs.map h) = xs.map fun x => f (g x) (h x)
  | [] => rfl
  | _ :: xs => by
    simp only [List.map_cons, List.zipWith_cons_cons]
    exact congrArg _ (zipWith_map_map f g h xs)

/-- Parameters with every loss fraction and transformer loss constant zero
and the POI ceiling at 100, as in the spec's lossless round-trip setup. -/
def c6Params : AcParams :=
  { pmt_peak_loss := 0, pmt_rating := 1000, pmt_constant_loss := 0,
    ac_collection := 0, mpt_peak_loss := 0, mpt_bottom_rating := 1000,
    mpt_constant_loss := 0, transmission_loss := 0, poi_capacity := 100,
    plant_losses := 0 }

/-- Claim C6 counterexample: with every loss fraction and every transformer
loss constant zero and the POI ceiling (100) above the whole input range,
the input series `[-1]` still does not round-trip: the PMT clamp forces the
negative inverter sample to 0, so `plant.output = [0] ≠ [-1]`. -/
theorem c6_counterexample :
    c6Params.ac_collection = 0 ∧ c6Params.transmission_loss = 0 ∧
    c6Params.plant_losses = 0 ∧ c6Params.pmt_peak_loss = 0 ∧
    c6Params.pmt_constant_loss = 0 ∧ c6Params.mpt_peak_loss = 0 ∧
    c6Params.mpt_constant_loss = 0 ∧ (-1 : ℚ) < c6Params.poi_capacity ∧
    (run_plant_model c6Params (run_pvwatts_ac c6Params [-1])).output ≠ [-1] := by
  have h : (run_plant_model c6Params (run_pvwatts_ac c6Params [-1])).output = [0] := by
    show List.zipWith (fun a b => a - b) (run_pvwatts_ac c6Params [-1]).output
        (run_pvwatts_ac c6Params [-1]).clipping = [0]
    rw [acOutput_eq_map, acClipping_eq_map, zipWith_map_map]
    norm_num [output_spec, mpt_out_spec, mpt_step_spec, mpt_in_spec, pmt_out_spec,
      clipping_spec, c6Params]
  refine ⟨rfl, rfl, rfl, rfl, rfl, rfl, rfl, by norm_num [c6Params], ?_⟩
  rw [h]
  norm_num

/-- Claim C6 (amended): if `ac_collection`, `transmission_loss`,
`plant_losses` and all four transformer loss constants are 0, the
transformer ratings are nonzero, and every sample of the input series lies
in `[0, poi_capacity]`, then `plant.output[t] = pac[t]` at every timestep:
the cascade from inverter output to plant output is lossless. -/
theorem c6_lossless_cascade (c : AcParams) (pac : List ℚ)
    (hacc : c.ac_collection = 0) (htr : c.transmission_loss = 0)
    (hpl : c.plant_losses = 0)
    (hpk1 : c.pmt_peak_loss = 0) (hc1 : c.pmt_constant_loss = 0)
    (hpk2 : c.mpt_peak_loss = 0) (hc2 : c.mpt_constant_loss = 0)
    (hr1 : c.pmt_rating ≠ 0) (hr2 : c.mpt_bottom_rating ≠ 0)
    (hrange : ∀ p ∈ pac, 0 ≤ p ∧ p ≤ c.poi_capacity) :
    (run_plant_model c (run_pvwatts_ac c pac)).output = pac := by
  have hout : (run_plant_model c (run_pvwatts_ac c pac)).output
      = List.zipWith (fun a b => a - b)
          (run_pvwatts_ac c pac).output (run_pvwatts_ac c pac).clipping := rfl
  have key : ∀ p ∈ pac, output_spec c p - clipping_spec c p = p := by
    intro p hp
    obtain ⟨h0, h1⟩ := hrange p hp
    have e1 : pmt_out_spec c p = p := by
      simp [pmt_out_spec, hpk1, hc1, max_eq_right h0]
    have e2 : mpt_in_spec c p = p := by
      simp [mpt_in_spec, e1, hacc]
    have e3 : mpt_out_spec c p = p := by
      simp [mpt_out_spec, mpt_step_spec, e2, hpk2, hc2, max_eq_right h0]
    have e4 : output_spec c p = p := by
      simp [output_spec, e3, htr]
    have e5 : clipping_spec c p = 0 := by
      simp [clipping_spec, e4, max_eq_left (sub_nonpos.mpr h1)]
    rw [e4, e5, sub_zero]
  rw [hout, acOutput_eq_map, acClipping_eq_map, zipWith_map_map]
  exact (List.map_congr_left key).trans (List.map_id pac)

/-- C6 witness input: nonnegative samples below the POI ceiling. -/
theorem c6_witness :
    (run_plant_model c6Params (run_pvwatts_ac c6Params [0, 50, 100])).output
      = [0, 50, 100] :=
  c6_lossless_cascade c6Params [0, 50, 100] rfl rfl rfl rfl rfl rfl rfl
    (by norm_num [c6Params]) (by norm_num [c6Params]) (by norm_num [c6Params])

/-- Transformer parameters with nonzero peak and constant loss terms. -/
def c7Params : AcParams :=
  { pmt_peak_loss := 10, pmt_rating := 1000, pmt_constant_loss := 2,
    ac_collection := 0, mpt_peak_loss := 10, mpt_bottom_rating := 1000,
    mpt_constant_loss := 2, transmission_loss := 0, poi_capacity := 0,
    plant_losses := 0 }

/-- Claim C7 counterexample: at the timestep `pac = 0`, which lies within
the rated capacity (1000) and has a nonzero constant-loss term (2), the
clamp makes the padmount transformer output equal its input (both 0): the
output is not strictly less than the input and the realized loss is not
strictly positive. -/
theorem c7_counterexample :
    c7Params.pmt_constant_loss ≠ 0 ∧ (0 : ℚ) ≤ c7Params.pmt_rating ∧
    pmt_out_spec c7Params 0 = 0 ∧ ¬ pmt_out_spec c7Params 0 < 0 := by
  have h : pmt_out_spec c7Params 0 = 0 := by
    norm_num [pmt_out_spec, c7Params]
  refine ⟨by norm_num [c7Params], by norm_num [c7Params], h, ?_⟩
  rw [h]
  norm_num

theorem xfmr_step_bounds (k r kc p : ℚ) (hk : 0 ≤ k) (hkc : 0 ≤ kc) (hp : 0 ≤ p) :
    max 0 (p - (k * (p / (98/100) / r) ^ 2 + kc)) ≤ p ∧
    (0 < p → 0 < kc → max 0 (p - (k * (p / (98/100) / r) ^ 2 + kc)) < p) := by
  have hloss : 0 ≤ k * (p / (98/100) / r) ^ 2 + kc := by positivity
  constructor
  · exact max_le hp (sub_le_self p hloss)
  · intro hp2 hkc2
    rcases le_or_lt (p - (k * (p / (98/100) / r) ^ 2 + kc)) 0 with h | h
    · rw [max_eq_left h]
      exact hp2
    · rw [max_eq_right h.le]
      have : 0 < k * (p / (98/100) / r) ^ 2 + kc := by positivity
      linarith

/-- Claim C7 (amended): with nonnegative loss coefficients, at every
timestep where the PMT input `p` and MPT input `q` are nonnegative and
within their rated capacities, each transformer loss (input minus clamped
output) is non-negative, and each transformer's output is strictly less
than its input whenever the input is strictly positive and the
corresponding constant-loss term is nonzero. -/
theorem c7_transformer_losses (c : AcParams) (p q : ℚ)
    (hpk : 0 ≤ c.pmt_peak_loss) (hpc : 0 ≤ c.pmt_constant_loss)
    (hmk : 0 ≤ c.mpt_peak_loss) (hmc : 0 ≤ c.mpt_constant_loss)
    (hp0 : 0 ≤ p) (hpr : p ≤ c.pmt_rating)
    (hq0 : 0 ≤ q) (hqr : q ≤ c.mpt_bottom_rating) :
    (0 ≤ p - pmt_out_spec c p ∧
      (0 < p → 0 < c.pmt_constant_loss → pmt_out_spec c p < p)) ∧
    (0 ≤ q - mpt_step_spec c q ∧
      (0 < q → 0 < c.mpt_constant_loss → mpt_step_spec c q < q)) := by
  have h1 := xfmr_step_bounds c.pmt_peak_loss c.pmt_rating c.pmt_constant_loss p hpk hpc hp0
  have h2 := xfmr_step_bounds c.mpt_peak_loss c.mpt_bottom_rating c.mpt_constant_loss q hmk hmc hq0
  exact ⟨⟨sub_nonneg.mpr h1.1, h1.2⟩, ⟨sub_nonneg.mpr h2.1, h2.2⟩⟩

/-- C7 witness: strictly positive inputs within rating and nonzero constant
losses give strictly reduced transformer outputs. -/
theorem c7_witness :
    pmt_out_spec c7Params 1000 < 1000 ∧ mpt_step_spec c7Params 500 < 500 := by
  have h := c7_transformer_losses c7Params 1000 500 (by norm_num [c7Params])
    (by norm_num [c7Params]) (by norm_num [c7Params]) (by norm_num [c7Params])
    (by norm_num) (by norm_num [c7Params]) (by norm_num) (by norm_num [c7Params])
  exact ⟨h.1.2 (by norm_num) (by norm_num [c7Params]),
    h.2.2 (by norm_num) (by norm_num [c7Params])⟩

/-! ## Irradiance combiner (`get_effective_irradiance`, combination step)

The inputs the combining step (source lines 363-377) reads from the model
chain: the PVLib frontside effective irradiance (already `fillna(0)`), the
PVFactors front/back irradiance (already `fillna(0)`), the system's
`backtrack` flag and `bifaciality`, the chain's `bifacial_losses`, and the
weather `soiling` series. -/

structure CombineIn where
  backtrack : Bool
  bifaciality : ℚ
  bifacial_losses : ℚ
  effective_irradiance : List ℚ
  front_irradiance : List ℚ
  back_irradiance : List ℚ
  soiling : List ℚ
  deriving DecidableEq, Repr

/-- Series `self.effective_irradiance_bifacial`: for backtracking systems
`self.effective_irradiance + self.back_irradiance * (bifaciality *
(1 - bifacial_losses))`, otherwise `self.front_irradiance + ...` with the
same back-side term. -/
def effective_irradiance_bifacial (c : CombineIn) : List ℚ :=
  if c.backtrack then
    List.zipWith (fun f b => f + b * (c.bifaciality * (1 - c.bifacial_losses)))
      c.effective_irradiance c.back_irradiance
  else
    List.zipWith (fun f b => f + b * (c.bifaciality * (1 - c.bifacial_losses)))
      c.front_irradiance c.back_irradiance

/-- Source: `self.effective_irradiance_soiled =
self.effective_irradiance_bifacial * (1 - self.soiling)`. -/
def effective_irradiance_soiled (c : CombineIn) : List ℚ :=
  List.zipWith (fun e s => e * (1 - s)) (effective_irradiance_bifacial c) c.soiling

/-- The frontside series the branch at source lines 363-372 picks: the
upstream PVLib effective irradiance for backtracking systems, the
view-factor front irradiance otherwise. -/
def frontsideSeries (c : CombineIn) : List ℚ :=
  if c.backtrack then c.effective_irradiance else c.front_irradiance

theorem zipWith_fst_list {α β : Type} :
    ∀ (xs : List α) (ys : List β), xs.length ≤ ys.length →
      List.zipWith (fun a _ => a) xs ys = xs
  | [], _, _ => rfl
  | _ :: _, [], h => by simp at h
  | x :: xs, y :: ys, h => by
    simp only [List.zipWith_cons_cons]
    exact congrArg _ (zipWith_fst_list xs ys (by simpa using h))

theorem getElem?_zipWith_list {α β γ : Type} (f : α → β → γ) :
    ∀ (as : List α) (bs : List β) (t : ℕ),
      (List.zipWith f as bs)[t]? = (as[t]?).bind fun a => (bs[t]?).map fun b => f a b
  | [], _, _ => by simp
  | _ :: _, [], _ => by simp
  | _ :: _, _ :: _, 0 => by simp
  | _ :: as, _ :: bs, t + 1 => by simpa using getElem?_zipWith_list f as bs t

theorem bifacial_collapse (c : CombineIn) (h : c.bifaciality = 0)
    (hlen : (frontsideSeries c).length ≤ c.back_irradiance.length) :
    effective_irradiance_bifacial c = frontsideSeries c := by
  have core : ∀ (k : ℚ) (xs ys : List ℚ), xs.length ≤ ys.length →
      List.zipWith (fun f b => f + b * (c.bifaciality * k)) xs ys = xs := by
    intro k xs ys hxy
    rw [h]
    simp only [zero_mul, mul_zero, add_zero]
    exact zipWith_fst_list xs ys hxy
  cases hb : c.backtrack
  · have hl : c.front_irradiance.length ≤ c.back_irradiance.length := by
      simpa [frontsideSeries, hb] using hlen
    simp only [effective_irradiance_bifacial, frontsideSeries, hb, if_false,
      Bool.false_eq_true]
    exact core _ _ _ hl
  · have hl : c.effective_irradiance.length ≤ c.back_irradiance.length := by
      simpa [frontsideSeries, hb] using hlen
    simp only [effective_irradiance_bifacial, frontsideSeries, hb, if_true]
    exact core _ _ _ hl

/-- Claim C5: if `bifaciality = 0` the combined effective-irradiance series
equals the frontside series exactly at every timestep, with no residual
dependence on the back-side series, and the soiled series is then the
frontside series times `(1 - soiling)`. -/
theorem c5_bifaciality_zero (c : CombineIn) (h : c.bifaciality = 0)
    (hlen : (frontsideSeries c).length ≤ c.back_irradiance.length) :
    effective_irradiance_bifacial c = frontsideSeries c ∧
    effective_irradiance_soiled c
      = List.zipWith (fun f s => f * (1 - s)) (frontsideSeries c) c.soiling ∧
    ∀ back2 : List ℚ, (frontsideSeries c).length ≤ back2.length →
      effective_irradiance_bifacial { c with back_irradiance := back2 }
        = effective_irradiance_bifacial c := by
  have e1 : effective_irradiance_bifacial c = frontsideSeries c :=
    bifacial_collapse c h hlen
  refine ⟨e1, ?_, ?_⟩
  · show List.zipWith _ (effective_irradiance_bifacial c) c.soiling = _
    rw [e1]
  · intro back2 h2
    have e3 : effective_irradiance_bifacial { c with back_irradiance := back2 }
        = frontsideSeries c :=
      bifacial_collapse { c with back_irradiance := back2 } h h2
    rw [e3, e1]

/-- Non-backtracking combiner input with zero bifaciality. -/
def c5Input : CombineIn :=
  { backtrack := false, bifaciality := 0, bifacial_losses := 1/10,
    effective_irradiance := [100, 200], front_irradiance := [90, 180],
    back_irradiance := [20, 40], soiling := [1/50, 1/50] }

/-- C5 witness: the zero-bifaciality collapse evaluated on a concrete run. -/
theorem c5_witness :
    effective_irradiance_bifacial c5Input = frontsideSeries c5Input ∧
    effective_irradiance_soiled c5Input
      = List.zipWith (fun f s => f * (1 - s)) (frontsideSeries c5Input) c5Input.soiling ∧
    ∀ back2 : List ℚ, (frontsideSeries c5Input).length ≤ back2.length →
      effective_irradiance_bifacial { c5Input with back_irradiance := back2 }
        = effective_irradiance_bifacial c5Input :=
  c5_bifaciality_zero c5Input rfl (by simp [frontsideSeries, c5Input])

/-- Claim C8: on a backtracking system the combined effective irradiance at
each timestep is the externally supplied frontside effective-irradiance
value (not the view-factor front value) plus
`back * bifaciality * (1 - bifacial_losses)`; on a non-backtracking system
it is the view-factor front value plus the same back-side term. -/
theorem c8_combined_formula (c : CombineIn) (t : ℕ) :
    (c.backtrack = true →
      (effective_irradiance_bifacial c)[t]? =
        (c.effective_irradiance[t]?).bind fun f =>
          (c.back_irradiance[t]?).map fun b =>
            f + b * c.bifaciality * (1 - c.bifacial_losses)) ∧
    (c.backtrack = false →
      (effective_irradiance_bifacial c)[t]? =
        (c.front_irradiance[t]?).bind fun f =>
          (c.back_irradiance[t]?).map fun b =>
            f + b * c.bifaciality * (1 - c.bifacial_losses)) := by
  constructor
  · intro hbt
    simp only [effective_irradiance_bifacial, hbt, if_true]
    rw [getElem?_zipWith_list]
    cases c.effective_irradiance[t]? <;> cases c.back_irradiance[t]? <;>
      simp <;> ring
  · intro hbt
    simp only [effective_irradiance_bifacial, hbt, if_false, Bool.false_eq_true]
    rw [getElem?_zipWith_list]
    cases c.front_irradiance[t]? <;> cases c.back_irradiance[t]? <;>
      simp <;> ring

/-- Backtracking combiner input. -/
def c8InputA : CombineIn :=
  { backtrack := true, bifaciality := 1/2, bifacial_losses := 1/10,
    effective_irradiance := [100], front_irradiance := [90],
    back_irradiance := [20], soiling := [0] }

/-- The same combiner input with backtracking off. -/
def c8InputB : CombineIn := { c8InputA with backtrack := false }

/-- C8 witness: both branches evaluated on concrete runs. -/
theorem c8_witness :
    (effective_irradiance_bifacial c8InputA)[0]? =
      ((c8InputA.effective_irradiance[0]?).bind fun f =>
        (c8InputA.back_irradiance[0]?).map fun b =>
          f + b * c8InputA.bifaciality * (1 - c8InputA.bifacial_losses)) ∧
    (effective_irradiance_bifacial c8InputB)[0]? =
      ((c8InputB.front_irradiance[0]?).bind fun f =>
        (c8InputB.back_irradiance[0]?).map fun b =>
          f + b * c8InputB.bifaciality * (1 - c8InputB.bifacial_losses)) :=
  ⟨(c8_combined_formula c8InputA 0).1 rfl, (c8_combined_formula c8InputB 0).2 rfl⟩

/-! ## System construction (`get_system`) -/

/-- The module parameters the pipeline reads (`pdc0`, `efficiency`,
`bifaciality`). -/
structure ModuleParams where
  pdc0 : ℚ
  efficiency : ℚ
  bifaciality : ℚ
  deriving DecidableEq, Repr

/-- The PVSystem attributes `get_system` sets and the pipeline reads.
`albedo` defaults to the PVLib grass value 0.25 unless overridden. -/
structure PvSystem where
  backtrack : Bool
  albedo : ℚ
  axis_azimuth : ℚ
  gcr : ℚ
  surface_tilt : ℚ
  surface_azimuth : ℚ
  axis_tilt : ℚ
  max_angle : ℚ
  axis_height : ℚ
  collector_width : ℚ
  module_parameters : ModuleParams
  deriving DecidableEq, Repr

/-- Embedding of `get_system`: a `SingleAxisTracker` for racking `tracker`, otherwise a
fixed-tilt `PVSystem` with `backtrack = False`; canopy and rooftop systems
get the albedo override; rooftop systems additionally get
`module_parameters['bifaciality'] = 0`. -/
def get_system (racking : String) (axis_height collector_width axis_azimuth gcr : ℚ)
    (module_parameters : ModuleParams) (axis_tilt max_angle : ℚ) (backtrack : Bool)
    (surface_tilt surface_azimuth albedo : ℚ) : PvSystem :=
  if racking = "tracker" then
    { backtrack := backtrack, albedo := 1/4, axis_azimuth := axis_azimuth,
      gcr := gcr, surface_tilt := 0, surface_azimuth := 0,
      axis_tilt := axis_tilt, max_angle := max_angle,
      axis_height := axis_height, collector_width := collector_width,
      module_parameters := module_parameters }
  else
    let s : PvSystem :=
      { backtrack := false, albedo := 1/4, axis_azimuth := axis_azimuth,
        gcr := gcr, surface_tilt := surface_tilt,
        surface_azimuth := surface_azimuth, axis_tilt := 0, max_angle := 0,
        axis_height := axis_height, collector_width := collector_width,
        module_parameters := module_parameters }
    let s := if racking ≠ "ground-mount" then { s with albedo := albedo } else s
    if racking = "rooftop" then
      { s with module_parameters := { s.module_parameters with bifaciality := 0 } }
    else s

/-- The combiner input assembled from a constructed system, the chain's
`bifacial_losses`, and the irradiance and soiling series. -/
def mc_combine_input (sys : PvSystem) (bifacial_losses : ℚ)
    (eff front back soiling : List ℚ) : CombineIn :=
  { backtrack := sys.backtrack,
    bifaciality := sys.module_parameters.bifaciality,
    bifacial_losses := bifacial_losses,
    effective_irradiance := eff, front_irradiance := front,
    back_irradiance := back, soiling := soiling }

/-- Claim C10: a system constructed with racking `rooftop` has its module
bifaciality forced to 0 at construction time, so the combined effective
irradiance of a rooftop system equals the view-factor frontside series with
no back-side contribution, regardless of the bifaciality supplied in the
module parameters. -/
theorem c10_rooftop_bifaciality
    (axis_height collector_width axis_azimuth gcr : ℚ) (mp : ModuleParams)
    (axis_tilt max_angle : ℚ) (backtrack : Bool)
    (surface_tilt surface_azimuth albedo : ℚ) :
    (get_system "rooftop" axis_height collector_width axis_azimuth gcr mp
      axis_tilt max_angle backtrack surface_tilt surface_azimuth
      albedo).module_parameters.bifaciality = 0 ∧
    ∀ (bifacial_losses : ℚ) (eff front back soiling : List ℚ),
      front.length ≤ back.length →
      effective_irradiance_bifacial
        (mc_combine_input
          (get_system "rooftop" axis_height collector_width axis_azimuth gcr mp
            axis_tilt max_angle backtrack surface_tilt surface_azimuth albedo)
          bifacial_losses eff front back soiling) = front := by
  have hsys : get_system "rooftop" axis_height collector_width axis_azimuth gcr mp
      axis_tilt max_angle backtrack surface_tilt surface_azimuth albedo =
      { backtrack := false, albedo := albedo, axis_azimuth := axis_azimuth,
        gcr := gcr, surface_tilt := surface_tilt,
        surface_azimuth := surface_azimuth, axis_tilt := 0, max_angle := 0,
        axis_height := axis_height, collector_width := collector_width,
        module_parameters := { mp with bifaciality := 0 } } := by
    simp [get_system]
  refine ⟨by rw [hsys], ?_⟩
  intro bifacial_losses eff front back soiling hlen
  rw [hsys]
  have h := bifacial_collapse
    (mc_combine_input
      { backtrack := false, albedo := albedo, axis_azimuth := axis_azimuth,
        gcr := gcr, surface_tilt := surface_tilt,
        surface_azimuth := surface_azimuth, axis_tilt := 0, max_angle := 0,
        axis_height := axis_height, collector_width := collector_width,
        module_parameters := { mp with bifaciality := 0 } }
      bifacial_losses eff front back soiling) rfl (by simpa [frontsideSeries, mc_combine_input] using hlen)
  have hfs : frontsideSeries
      (mc_combine_input
        { backtrack := false, albedo := albedo, axis_azimuth := axis_azimuth,
          gcr := gcr, surface_tilt := surface_tilt,
          surface_azimuth := surface_azimuth, axis_tilt := 0, max_angle := 0,
          axis_height := axis_height, collector_width := collector_width,
          module_parameters := { mp with bifaciality := 0 } }
        bifacial_losses eff front back soiling) = front := by
    simp [frontsideSeries, mc_combine_input]
  exact h.trans hfs

/-- Module parameters with a nonzero supplied bifaciality. -/
def c10Mp : ModuleParams := { pdc0 := 1000, efficiency := 1/5, bifaciality := 7/10 }

/-- C10 witness: a concrete rooftop system with supplied bifaciality 0.7. -/
theorem c10_witness :
    (get_system "rooftop" 2 4 180 (3/10) c10Mp 0 0 false 20 180
      (1/10)).module_parameters.bifaciality = 0 ∧
    effective_irradiance_bifacial
      (mc_combine_input
        (get_system "rooftop" 2 4 180 (3/10) c10Mp 0 0 false 20 180 (1/10))
        (1/10) [100] [90] [20] [0]) = [90] := by
  have h := c10_rooftop_bifaciality 2 4 180 (3/10) c10Mp 0 0 false 20 180 (1/10)
  exact ⟨h.1, h.2 (1/10) [100] [90] [20] [0] (by simp)⟩

/-! ## Weather index preparation (`get_effective_irradiance`, lines 282-295)

The weather DataFrame is modelled as its timestamp index (wall-clock sample
times plus an optional fixed timezone offset, `none` for a naive index) and
its data columns.  The source first computes the fixed-offset timezone
string `tz = 'Etc/GMT+' + str(-utc_offset)` (whose UTC offset is
`utc_offset` hours) and then reassigns `weather.index`, tz-localizing a
naive index and tz-converting an aware one; `pandas` attribute assignment
`weather.albedo = ...` creates an instance attribute, not a column, so no
data column is touched. -/

structure Weather where
  times : List ℤ
  tz : Option ℤ
  ghi : List ℚ
  dni : List ℚ
  dhi : List ℚ
  temp_air : List ℚ
  wind_speed : List ℚ
  surface_albedo : List ℚ
  soiling : List ℚ
  deriving DecidableEq, Repr

/-- The index reassignment performed on the caller's weather DataFrame:
`tz_localize` keeps wall-clock times and attaches the offset; `tz_convert`
shifts wall-clock times to the new offset. -/
def prepare_weather_index (utc_offset : ℤ) (w : Weather) : Weather :=
  match w.tz with
  | none => { w with tz := some utc_offset }
  | some z0 =>
    { w with
      times := w.times.map (fun t => t + (utc_offset - z0))
      tz := some utc_offset }

/-- A caller-owned weather DataFrame with a naive index. -/
def c2Weather : Weather :=
  { times := [0, 1], tz := none, ghi := [100, 200], dni := [50, 60],
    dhi := [20, 30], temp_air := [25, 26], wind_speed := [1, 2],
    surface_albedo := [1/5, 1/5], soiling := [1/50, 1/50] }

/-- Claim C2 counterexample: running the irradiance-combining step on a
weather DataFrame with a naive index mutates the caller's DataFrame: the
index is tz-localized in place, so the DataFrame is not the same after the
call as before it. -/
theorem c2_counterexample :
    c2Weather.tz = none ∧ prepare_weather_index (-5) c2Weather ≠ c2Weather := by
  refine ⟨rfl, ?_⟩
  intro hcontra
  have : (prepare_weather_index (-5) c2Weather).tz = c2Weather.tz := by rw [hcontra]
  simp [prepare_weather_index, c2Weather] at this

/-- Claim C2 (amended): the irradiance-combining step mutates the caller's
weather DataFrame index, localizing a naive index (or converting an aware
one) to the fixed-offset timezone derived from `utc_offset`; every data
column, including `surface_albedo`, is left unchanged. -/
theorem c2_weather_columns_preserved (z : ℤ) (w : Weather) :
    (prepare_weather_index z w).ghi = w.ghi ∧
    (prepare_weather_index z w).dni = w.dni ∧
    (prepare_weather_index z w).dhi = w.dhi ∧
    (prepare_weather_index z w).temp_air = w.temp_air ∧
    (prepare_weather_index z w).wind_speed = w.wind_speed ∧
    (prepare_weather_index z w).surface_albedo = w.surface_albedo ∧
    (prepare_weather_index z w).soiling = w.soiling ∧
    (prepare_weather_index z w).tz = some z := by
  cases hz : w.tz <;> simp [prepare_weather_index, hz]

/-! ## Metrics stage (`get_results`)

`self.plant.output.sum()` is a numpy scalar, so every arithmetic expression
built from it stays numpy-typed: numpy scalar division by zero emits a
runtime warning and yields a non-finite value (inf/nan) instead of raising.
A numpy scalar is modelled as `Option ℚ` with `none` for a non-finite
value.  `self.dc_capacity` and `module_parameters['efficiency']` are plain
Python numbers, and pure-Python scalar division by zero raises
`ZeroDivisionError`; a computation that may raise is modelled in
`Except String`. -/

/-- numpy scalar divided by a Python scalar: non-finite on a zero divisor,
never an exception. -/
def npdiv (a : Option ℚ) (b : ℚ) : Option ℚ :=
  a.bind fun x => if b = 0 then none else some (x / b)

/-- numpy scalar divided by a numpy scalar. -/
def npdivO (a b : Option ℚ) : Option ℚ :=
  a.bind fun x => b.bind fun y => if y = 0 then none else some (x / y)

/-- numpy scalar subtraction. -/
def npsub (a b : Option ℚ) : Option ℚ :=
  a.bind fun x => b.map fun y => x - y

/-- Pure-Python scalar division: raises `ZeroDivisionError` on a zero
divisor. -/
def pydiv (a b : ℚ) : Except String ℚ :=
  if b = 0 then .error "ZeroDivisionError" else .ok (a / b)

/-- The model-chain attributes `get_results` reads.  The bifacial-combined
and soiled irradiance series are carried along (the chain holds them at
this point) to express that the metrics never read them. -/
structure MetricsIn where
  plant_output : List ℚ
  plant_losses : List ℚ
  effective_irradiance : List ℚ
  effective_irradiance_bifacial : List ℚ
  effective_irradiance_soiled : List ℚ
  time_step : ℚ
  poi_capacity : ℚ
  dc_capacity : ℚ
  efficiency : ℚ
  deriving DecidableEq, Repr

/-- The scalar metrics `get_results` assigns. -/
structure Results where
  aep : Option ℚ
  ncf : Option ℚ
  energy_yield : Option ℚ
  pr : Option ℚ
  deriving DecidableEq, Repr

/-- Embedding of `get_results`: `aep = (plant.output.sum() - plant.losses.sum()) *
time_step / 60`; `ncf = aep / poi_capacity / 8760`;
`energy_yield = aep / dc_capacity`; `pr = 1 - aep /
(effective_irradiance.sum() * time_step / 60 * (dc_capacity / efficiency /
1000))`.  Only the divisions `dc_capacity / efficiency / 1000` are
pure-Python scalar divisions; every other division has a numpy left
operand. -/
def get_results (m : MetricsIn) : Except String Results :=
  let aep : Option ℚ :=
    some ((m.plant_output.sum - m.plant_losses.sum) * m.time_step / 60)
  let ncf : Option ℚ := npdiv (npdiv aep m.poi_capacity) 8760
  let energy_yield : Option ℚ := npdiv aep m.dc_capacity
  match pydiv m.dc_capacity m.efficiency with
  | .error e => .error e
  | .ok r1 =>
    match pydiv r1 1000 with
    | .error e => .error e
    | .ok r2 =>
      let pr : Option ℚ := npsub (some 1)
        (npdivO aep (some (m.effective_irradiance.sum * m.time_step / 60 * r2)))
      .ok { aep := aep, ncf := ncf, energy_yield := energy_yield, pr := pr }

/-- Metrics input with `dc_capacity = 0` but nonzero efficiency. -/
def c3Input : MetricsIn :=
  { plant_output := [100, 100], plant_losses := [0, 0],
    effective_irradiance := [500, 500],
    effective_irradiance_bifacial := [550, 550],
    effective_irradiance_soiled := [540, 540],
    time_step := 60, poi_capacity := 100, dc_capacity := 0,
    efficiency := 1/5 }

/-- Claim C3 counterexample: with `dc_capacity = 0` (and nonzero
`module_efficiency`) the metrics stage does not raise a division fault: it
returns normally, silently propagating a non-finite `energy_yield` through
numpy division semantics. -/
theorem c3_counterexample :
    c3Input.dc_capacity = 0 ∧ (get_results c3Input).isOk = true ∧
    (get_results c3Input).toOption.map Results.energy_yield = some none := by
  refine ⟨rfl, ?_, ?_⟩ <;>
    norm_num [get_results, pydiv, npdiv, npdivO, npsub, c3Input, Except.toOption,
      Except.isOk, Except.toBool]

/-- Claim C3 (amended): `module_efficiency = 0` makes `get_results` raise
`ZeroDivisionError` (the pure-Python scalar division `dc_capacity /
efficiency`); `dc_capacity = 0` with nonzero efficiency does not raise: the
call returns normally with a non-finite `energy_yield` (numpy division by
zero), so callers must validate `dc_capacity` separately. -/
theorem c3_division_fault (m : MetricsIn) :
    (m.efficiency = 0 → get_results m = .error "ZeroDivisionError") ∧
    (m.dc_capacity = 0 → m.efficiency ≠ 0 →
      (get_results m).isOk = true ∧
      (get_results m).toOption.map Results.energy_yield = some none) := by
  constructor
  · intro h
    simp [get_results, pydiv, h]
  · intro hdc heff
    constructor <;>
      norm_num [get_results, pydiv, npdiv, npdivO, npsub, hdc, heff, Except.toOption,
        Except.isOk, Except.toBool]

/-- Metrics input with `efficiency = 0` and nonzero `dc_capacity`. -/
def c3InputB : MetricsIn := { c3Input with efficiency := 0, dc_capacity := 1000 }

/-- C3 witness: both branches of the amended claim at concrete inputs. -/
theorem c3_division_fault_witness :
    get_results c3InputB = .error "ZeroDivisionError" ∧
    (get_results c3Input).isOk = true :=
  ⟨(c3_division_fault c3InputB).1 rfl,
    ((c3_division_fault c3Input).2 rfl (by norm_num [c3Input])).1⟩

/-- Claim C4: `ncf = aep / poi_capacity / 8760`, dividing by the fixed
constant 8760 regardless of the length or time span of the plant series
(no normalization to the actual number of samples appears in the
formula). -/
theorem c4_ncf_fixed_8760 (m : MetricsIn) (heff : m.efficiency ≠ 0)
    (hpoi : m.poi_capacity ≠ 0) :
    (get_results m).toOption.map Results.ncf =
      some (some ((m.plant_output.sum - m.plant_losses.sum) * m.time_step / 60
        / m.poi_capacity / 8760)) := by
  norm_num [get_results, pydiv, npdiv, heff, hpoi, Except.toOption]

/-- C4 witness: the net-capacity-factor formula at a concrete input. -/
theorem c4_witness :
    (get_results c3Input).toOption.map Results.ncf =
      some (some ((c3Input.plant_output.sum - c3Input.plant_losses.sum) *
        c3Input.time_step / 60 / c3Input.poi_capacity / 8760)) :=
  c4_ncf_fixed_8760 c3Input (by norm_num [c3Input]) (by norm_num [c3Input])

/-- Claim C9: `pr = 1 - aep / (effective_irradiance_frontside.sum() *
time_step / 60 * (dc_capacity / efficiency / 1000))`, where the reference
denominator uses the frontside effective-irradiance series; the metrics do
not depend on the bifacial-combined or soiled series at all. -/
theorem c9_pr_frontside (m : MetricsIn) (heff : m.efficiency ≠ 0) :
    (get_results m).toOption.map Results.pr =
      some (npsub (some 1) (npdivO
        (some ((m.plant_output.sum - m.plant_losses.sum) * m.time_step / 60))
        (some (m.effective_irradiance.sum * m.time_step / 60
          * (m.dc_capacity / m.efficiency / 1000))))) ∧
    ∀ xs ys : List ℚ,
      get_results { m with
        effective_irradiance_bifacial := xs
        effective_irradiance_soiled := ys } = get_results m := by
  constructor
  · norm_num [get_results, pydiv, heff, Except.toOption]
  · intro xs ys
    rfl

/-- Metrics input with every parameter nonzero. -/
def c9Input : MetricsIn :=
  { plant_output := [100, 100], plant_losses := [10, 10],
    effective_irradiance := [500, 500],
    effective_irradiance_bifacial := [550, 550],
    effective_irradiance_soiled := [540, 540],
    time_step := 60, poi_capacity := 100, dc_capacity := 1000,
    efficiency := 1/5 }

/-- C9 witness: the performance-ratio formula and its independence from the
combined/soiled series at a concrete input. -/
theorem c9_witness :
    (get_results c9Input).toOption.map Results.pr =
      some (npsub (some 1) (npdivO
        (some ((c9Input.plant_output.sum - c9Input.plant_losses.sum) *
          c9Input.time_step / 60))
        (some (c9Input.effective_irradiance.sum * c9Input.time_step / 60
          * (c9Input.dc_capacity / c9Input.efficiency / 1000))))) ∧
    get_results { c9Input with
      effective_irradiance_bifacial := [1]
      effective_irradiance_soiled := [2] } = get_results c9Input :=
  ⟨(c9_pr_frontside c9Input (by norm_num [c9Input])).1,
    (c9_pr_frontside c9Input (by norm_num [c9Input])).2 [1] [2]⟩
